import Mathlib

/-!
Verification development for the yajnir JNI safety layer.

Shallow embedding of the code in src/: machine integers are modelled as
Nat/Int with explicit truncation where the source casts, foreign (FFI)
calls are modelled as explicit oracle parameters describing what the
foreign runtime returned, and panics (assert!, expect, todo!) are
modelled as the `none` case of an `Option` result.
-/

namespace Yajnir

/-! ## Machine-integer casts used by the source -/

/-- Truncation of a natural to the u16 range, modelling an `as u16` cast. -/
def u16_of (n : Nat) : Nat := n % 65536

/-- Reinterpretation of a u32 value as an i32, modelling an `as i32` cast. -/
def u32_as_i32 (n : Nat) : Int :=
  if n < 2147483648 then (n : Int) else (n : Int) - 4294967296

/-- Reinterpretation of an i32 value as a u32, modelling an `as u32` cast. -/
def i32_as_u32 (n : Int) : Nat := (n % 4294967296).toNat

/-- Reinterpretation of an i32 value as a 64-bit usize, modelling an `as usize`
cast (negative values sign-extend to huge unsigned values). -/
def i32_as_usize (n : Int) : Nat := (n % 18446744073709551616).toNat

/-! ## JNI constants

Values of the result-code constants re-exported by the `jni_sys`
dependency (the foreign interface's documented constants). -/

def JNI_OK : Int := 0
def JNI_ERR : Int := -1
def JNI_EDETACHED : Int := -2
def JNI_EVERSION : Int := -3
def JNI_ENOMEM : Int := -4
def JNI_EEXIST : Int := -5
def JNI_EINVAL : Int := -6

/-- jboolean constant JNI_TRUE from jni_sys. -/
def JNI_TRUE : Nat := 1
/-- jboolean constant JNI_FALSE from jni_sys. -/
def JNI_FALSE : Nat := 0

/-- Translates a Rust bool to a Java boolean (src/src/lib.rs `r2j_bool`). -/
def r2j_bool (val : Bool) : Nat :=
  if val then JNI_TRUE else JNI_FALSE

/-- Translates a Java boolean to a Rust bool (src/src/lib.rs `j2r_bool`). -/
def j2r_bool (val : Nat) : Bool :=
  if val = JNI_FALSE then false
  else if val ≠ JNI_TRUE then true
  else true

/-! ## JniVersion (src/src/jvm.rs) -/

/-- `JniVersion { major: u16, minor: u16 }`; fields modelled as Nat values
below 65536 (the u16 range is re-imposed by `% 65536` where they are read
as u16-typed data). -/
structure JniVersion where
  major : Nat
  minor : Nat
deriving DecidableEq, Repr

/-- `JniVersion::as_native`: `((self.major as u32) << 16) | (self.minor as u32)`.
The `% 65536` models the u16 type of the fields. -/
def JniVersion.as_native (v : JniVersion) : Nat :=
  ((v.major % 65536) <<< 16) ||| (v.minor % 65536)

/-- `JniVersion::from_native`: the source reads
`(n & 0xFFFF0000 >> 16) as u16` and `(n & 0x0000FFFF >> 0) as u16`.
In Rust the shift binds tighter than the bitwise and, so the mask is
shifted before being applied; the embedding keeps that grouping, and the
final `u16_of` models the `as u16` truncation. -/
def JniVersion.from_native (n : Nat) : JniVersion where
  major := u16_of (n &&& (0xFFFF0000 >>> 16))
  minor := u16_of (n &&& (0x0000FFFF >>> 0))

/-! ## Handles and the error taxonomy (src/src/jvm.rs) -/

/-- `JavaVM { ptr: NonNull<jni_sys::JavaVM> }`; the raw pointer is modelled
as a Nat, with 0 standing for the null pointer. Values of this structure
are only built at places where the source has established non-nullness
(`NonNull::new(..).expect(..)`). -/
structure JavaVM where
  ptr : Nat
deriving DecidableEq, Repr

/-- `JniEnv { ptr: NonNull<jni_sys::JNIEnv>, .. }` (src/src/env.rs). -/
structure JniEnv where
  ptr : Nat
deriving DecidableEq, Repr

/-- `NonNull::new`: some only for a non-null pointer. -/
def nonNullNew (n : Nat) : Option Nat :=
  if n = 0 then none else some n

/-- Opaque error value of the external cesu8 crate
(`cesu8::Cesu8DecodingError`, a unit-like struct). -/
structure Cesu8DecodingError where
deriving DecidableEq, Repr

/-- The `VmError` enum of src/src/jvm.rs. `VMExists` carries
`Result<JavaVM, Box<VmError>>`, embedded as `Except VmError JavaVM`;
`MissingFunction` carries the static function-name string. -/
inductive VmError where
  | Unknown
  | Detached
  | BadVersion
  | NotEnoughMemory
  | VMExists (r : Except VmError JavaVM)
  | InvalidArguments
  | MissingFunction (name : String)
  | BadCesu8String (e : Cesu8DecodingError)

/-- `VmError::assert_ok` (src/src/jvm.rs lines 327-343). The `JNI_EEXIST`
branch of the source calls `JavaVM::created_jvms()` (an FFI-driven
lookup); that nested lookup's outcome is passed in as the `lookup`
parameter (`none` meaning the lookup itself panicked). The branch then
takes element 0 of the returned list with
`.expect("JavaVM to exist if JNI_EEXIST was returned")`, a panic on the
empty list, modelled as `none`. Every other code falls through to
`Ok(fr)` unchanged. -/
def assert_ok (lookup : Option (Except VmError (List JavaVM)))
    (func_result : Int) : Option (Except VmError Int) :=
  if func_result = JNI_ERR then some (.error .Unknown)
  else if func_result = JNI_EDETACHED then some (.error .Detached)
  else if func_result = JNI_EVERSION then some (.error .BadVersion)
  else if func_result = JNI_ENOMEM then some (.error .NotEnoughMemory)
  else if func_result = JNI_EEXIST then
    match lookup with
    | none => none
    | some (.error e) => some (.error (.VMExists (.error e)))
    | some (.ok []) => none
    | some (.ok (v :: _)) => some (.error (.VMExists (.ok v)))
  else if func_result = JNI_EINVAL then some (.error .InvalidArguments)
  else some (.ok func_result)

/-- The list of runtime handles carried inside a `VmError`: the
`VMExists` variant carries a single successfully looked-up handle, so
the carried handle list is that singleton; every other error carries
none. Used to compare what `VMExists` carries against the full
enumeration result. -/
def carriedJvms : VmError → List JavaVM
  | .VMExists (.ok v) => [v]
  | _ => []

/-! ## Startup options and default_args (src/src/jvm.rs) -/

/-- `VmOptions { version, options: Vec<Cow<str>>, ignore_unrecognized }`. -/
structure VmOptions where
  version : JniVersion
  options : List String
  ignore_unrecognized : Bool
deriving DecidableEq, Repr

/-- The `jni_sys::JavaVMInitArgs` record as handed to a foreign call:
`options` is the buffer the `options` pointer refers to, each entry the
CESU-8 byte string its `optionString` points at (`none` = null). -/
structure JavaVMInitArgs where
  version : Int
  nOptions : Int
  options : List (Option (List Nat))
  ignoreUnrecognized : Nat
deriving Repr

/-- What the foreign `JNI_GetDefaultJavaVMInitArgs` call left behind: its
return code, the mutated fields of the args record, whether the
`options` pointer was left null, and the contents of the caller's
64-entry buffer after the call. -/
structure DefaultArgsOutcome where
  res : Int
  version : Int
  nOptions : Int
  optionsNull : Bool
  buffer : List (Option (List Nat))
  ignoreUnrecognized : Nat

/-- The `JavaVMInitArgs` that `JavaVM::default_args` fills in before the
foreign query: version from the target, `nOptions = 64`, a 64-entry
buffer of empty options (`optionString` null), `ignoreUnrecognized`
true. -/
def defaultArgsQuery (target_version : JniVersion) : JavaVMInitArgs where
  version := u32_as_i32 target_version.as_native
  nOptions := 64
  options := List.replicate 64 none
  ignoreUnrecognized := r2j_bool true

/-- The straight-line tail of `JavaVM::default_args` after the foreign
call returns (src/src/jvm.rs lines 84-105): map the result code through
`assert_ok`, panic (`none`) unless it is 0, panic if the options pointer
is null, panic (`assert!`) if the reported option count exceeds the
64-entry capacity, slice the buffer to the reported count (a negative
count reinterprets as a huge usize and the slice panics), drop null
entries, decode each remaining option string through the external cesu8
codec (`decode`), and assemble the `VmOptions`. -/
def processDefaultArgs (lookup : Option (Except VmError (List JavaVM)))
    (decode : List Nat → Except Cesu8DecodingError String)
    (out : DefaultArgsOutcome) : Option (Except VmError VmOptions) :=
  match assert_ok lookup out.res with
  | none => none
  | some (.error e) => some (.error e)
  | some (.ok r) =>
    if r ≠ 0 then none
    else if out.optionsNull then none
    else if out.nOptions > 64 then none
    else if i32_as_usize out.nOptions > 64 then none
    else
      match ((out.buffer.take (i32_as_usize out.nOptions)).filterMap id).mapM decode with
      | .error e => some (.error (.BadCesu8String e))
      | .ok opts =>
        some (.ok
          { version := JniVersion.from_native (i32_as_u32 out.version)
            options := opts
            ignore_unrecognized := j2r_bool out.ignoreUnrecognized })

/-- `JavaVM::default_args` (src/src/jvm.rs lines 67-105): build the query
record with the 64-entry buffer, perform the foreign call (`foreign`),
then process its outcome. -/
def default_args (lookup : Option (Except VmError (List JavaVM)))
    (decode : List Nat → Except Cesu8DecodingError String)
    (foreign : JavaVMInitArgs → DefaultArgsOutcome)
    (target_version : JniVersion) : Option (Except VmError VmOptions) :=
  processDefaultArgs lookup decode (foreign (defaultArgsQuery target_version))

/-! ## created_jvms (src/src/jvm.rs lines 110-141) -/

/-- What one foreign `JNI_GetCreatedJavaVMs` call did, as a function of
the buffer length it was given: its return code, the true count it
stored, and the raw handle values it wrote into the leading entries of
the buffer (0 = null pointer). -/
structure CreatedOutcome where
  res : Int
  trueLen : Int
  written : List Nat

/-- `Vec::resize(n, 0)` on the pointer buffer: keep the first `n` entries,
pad with null. -/
def listResize (l : List Nat) (n : Nat) : List Nat :=
  l.take n ++ List.replicate (n - l.length) 0

/-- The retry loop of `JavaVM::created_jvms`, with explicit fuel (`none`
is returned both for a panic inside the loop and for fuel exhaustion;
the source loop is unbounded). Each pass: call the foreign enumeration
with the current buffer (its written prefix replaces the buffer's
leading entries), map the code through `assert_ok`, panic unless it is
0, panic if the buffer length does not fit in a jsize, regrow to the
true count and retry when the true count exceeds the buffer length,
truncate when it is smaller (`as usize` reinterpretation kept for the
truncation argument), then panic on any null handle and wrap the rest. -/
def created_jvms_loop (lookup : Option (Except VmError (List JavaVM)))
    (fetch : Nat → CreatedOutcome) :
    Nat → List Nat → Option (Except VmError (List JavaVM))
  | 0, _ => none
  | fuel + 1, buf =>
    let out := fetch buf.length
    let buf' := out.written ++ buf.drop out.written.length
    match assert_ok lookup out.res with
    | none => none
    | some (.error e) => some (.error e)
    | some (.ok r) =>
      if r ≠ 0 then none
      else if buf.length > 2147483647 then none
      else if out.trueLen > (buf.length : Int) then
        created_jvms_loop lookup fetch fuel (listResize buf' (i32_as_usize out.trueLen))
      else
        let final := if out.trueLen < (buf.length : Int) then
          buf'.take (i32_as_usize out.trueLen) else buf'
        if final.any (· = 0) then none
        else some (.ok (final.map JavaVM.mk))

/-- `JavaVM::created_jvms`: run the loop from the initial one-entry null
buffer (`vec![null_mut(); 1]`). The source's `assert_ok` call would
recursively consult `created_jvms` on a `JNI_EEXIST` code; that nested
lookup is cut by the explicit `lookup` parameter (the foreign
enumeration call never returns `JNI_EEXIST`). -/
def created_jvms (lookup : Option (Except VmError (List JavaVM)))
    (fetch : Nat → CreatedOutcome) (fuel : Nat) :
    Option (Except VmError (List JavaVM)) :=
  created_jvms_loop lookup fetch fuel (List.replicate 1 0)

/-! ## create, destroy, create_with (src/src/jvm.rs lines 163-241) -/

/-- What the foreign `JNI_CreateJavaVM` call produced: its return code and
the raw pointers it stored for the new JavaVM and JNIEnv (0 = null). -/
structure CreateOutcome where
  res : Int
  jvmPtr : Nat
  envPtr : Nat

/-- The `JavaVMInitArgs` that `JavaVM::create` builds from a `VmOptions`
before the foreign call: each option string encoded to CESU-8 by the
external codec (`encode`), version packed, count taken from the list. -/
def createInitArgs (encode : String → List Nat) (opts : VmOptions) : JavaVMInitArgs where
  version := u32_as_i32 opts.version.as_native
  nOptions := opts.options.length
  options := opts.options.map (fun s => some (encode s))
  ignoreUnrecognized := r2j_bool opts.ignore_unrecognized

/-- The tail of `JavaVM::create` from the foreign call onwards
(src/src/jvm.rs lines 196-216): map the code through `assert_ok`, panic
(`none`) unless it is 0, panic if either output pointer is null, else
return the pair of handles. -/
def createForeignCall (lookup : Option (Except VmError (List JavaVM)))
    (foreign : JavaVMInitArgs → CreateOutcome) (args : JavaVMInitArgs) :
    Option (Except VmError (JavaVM × JniEnv)) :=
  let out := foreign args
  match assert_ok lookup out.res with
  | none => none
  | some (.error e) => some (.error e)
  | some (.ok r) =>
    if r ≠ 0 then none
    else
      match nonNullNew out.jvmPtr, nonNullNew out.envPtr with
      | some j, some e => some (.ok (⟨j⟩, ⟨e⟩))
      | _, _ => none

/-- `JavaVM::create` (src/src/jvm.rs lines 163-217): panic (`none`) if the
option list contains an entry equal to "vfprintf", "exit" or "abort";
otherwise encode the options, build the init args and perform the
foreign create call. -/
def create (lookup : Option (Except VmError (List JavaVM)))
    (encode : String → List Nat)
    (foreign : JavaVMInitArgs → CreateOutcome) (opts : VmOptions) :
    Option (Except VmError (JavaVM × JniEnv)) :=
  if opts.options.any (fun s => s == "vfprintf") then none
  else if opts.options.any (fun s => s == "exit") then none
  else if opts.options.any (fun s => s == "abort") then none
  else createForeignCall lookup foreign (createInitArgs encode opts)

/-- The `jni_sys::JNIInvokeInterface` function table reached through a
JavaVM pointer, restricted to the slot this development needs. Each slot
is an optional function pointer; `DestroyJavaVM` receives the JavaVM
pointer itself and returns a jint. -/
structure JNIInvokeInterface where
  DestroyJavaVM : Option (Nat → Int)

/-- The tail of `JavaVM::destroy` after the function pointer has been
looked up and invoked: map the returned code through `assert_ok`, panic
(`none`) unless it is 0, else succeed. -/
def destroyInvokeResult (lookup : Option (Except VmError (List JavaVM)))
    (res : Int) : Option (Except VmError Unit) :=
  match assert_ok lookup res with
  | none => none
  | some (.error e) => some (.error e)
  | some (.ok r) => if r ≠ 0 then none else some (.ok ())

/-- `JavaVM::destroy` (src/src/jvm.rs lines 219-226), with the
`java_vm_unchecked! / java_vm_method!` dispatch of src/src/macros.rs
inlined: dereference the JavaVM pointer to its function table (`mem`),
look up the `DestroyJavaVM` slot; a `None` slot returns
`VmError::MissingFunction("DestroyJavaVM")` without any invocation, a
populated slot is invoked on the JavaVM pointer and its code
processed. -/
def destroy (lookup : Option (Except VmError (List JavaVM)))
    (mem : Nat → JNIInvokeInterface) (jvm : JavaVM) :
    Option (Except VmError Unit) :=
  match (mem jvm.ptr).DestroyJavaVM with
  | none => some (.error (.MissingFunction "DestroyJavaVM"))
  | some meth => destroyInvokeResult lookup (meth jvm.ptr)

/-- `JavaVM::create_with` (src/src/jvm.rs lines 228-241): create, run the
user function, then destroy; a creation failure is returned as
`Err((e, None))`, a destruction failure as `Err((e, Some(res)))` with
the already-computed user result, and otherwise the user result is
returned as `Ok`. -/
def create_with {O : Type} (lookup : Option (Except VmError (List JavaVM)))
    (encode : String → List Nat)
    (foreign : JavaVMInitArgs → CreateOutcome)
    (mem : Nat → JNIInvokeInterface)
    (opts : VmOptions) (func : JavaVM → JniEnv → O) :
    Option (Except (VmError × Option O) O) :=
  match create lookup encode foreign opts with
  | none => none
  | some (.error e) => some (.error (e, none))
  | some (.ok (jvm, jenv)) =>
    let res := func jvm jenv
    match destroy lookup mem jvm with
    | none => none
    | some (.ok ()) => some (.ok res)
    | some (.error e) => some (.error (e, some res))

/-! ## Global references (src/src/jref.rs)

The `Arc<RawJObject>` owner and the `Arc<T::IDs>` descriptor are
modelled by the pointer identities they share under `Arc::clone` (a Nat
each); the phantom type parameter is dropped. -/

/-- `GlobalRef { jvm, obj: Arc<RawJObject>, desc: Arc<T::IDs> }`. -/
structure GlobalRef where
  jvm : JavaVM
  obj : Nat
  desc : Nat
deriving DecidableEq, Repr

/-- `GlobalObj { env, obj: Arc<RawJObject>, desc: Arc<T::IDs> }`. -/
structure GlobalObj where
  env : JniEnv
  obj : Nat
  desc : Nat
deriving DecidableEq, Repr

/-- `GlobalRef::upgrade` (src/src/jref.rs lines 90-97): bind the calling
thread's environment, `Arc::clone` the object owner and the
descriptor. -/
def GlobalRef.upgrade (r : GlobalRef) (env : JniEnv) : GlobalObj where
  env := env
  obj := r.obj
  desc := r.desc

/-- Modelled from the spec: the body of `GlobalObj::downgrade`
(src/src/jref.rs lines 100-114) is a `todo!()` stub, and spec section 9
records the derivation of the owning runtime handle as left
unimplemented in the source. Spec sections 4.3 and 8 specify the
operation: detach the environment binding, derive the owning runtime
handle from the environment via a foreign reverse-lookup (here the
oracle `getJavaVM`), and carry the shared object handle and descriptor
across unchanged. -/
def GlobalObj.downgrade (getJavaVM : JniEnv → JavaVM) (o : GlobalObj) : GlobalRef where
  jvm := getJavaVM o.env
  obj := o.obj
  desc := o.desc

/-! ## Native-symbol name escaping (src/src/lib.rs lines 21-78) -/

/-- Rust `char::is_numeric`, restricted to the inputs this development
uses: on the ASCII range it holds exactly for the decimal digits (the
further Unicode numeric classes do not intersect ASCII). -/
def rust_is_numeric (c : Char) : Bool := c.isDigit

/-- Rust `char::is_ascii_alphanumeric`. -/
def rust_is_ascii_alphanumeric (c : Char) : Bool :=
  ('0' ≤ c && c ≤ '9') || ('a' ≤ c && c ≤ 'z') || ('A' ≤ c && c ≤ 'Z')

/-- One lowercase hexadecimal digit. -/
def hexDigit (n : Nat) : Char :=
  if n < 10 then Char.ofNat ('0'.toNat + n) else Char.ofNat ('a'.toNat + (n - 10))

/-- Four lowercase hexadecimal digits of a u16 value, as printed by the
`{:04x}` format used in the escape fallback. -/
def hex4 (n : Nat) : List Char :=
  [hexDigit (n / 4096 % 16), hexDigit (n / 256 % 16), hexDigit (n / 16 % 16), hexDigit (n % 16)]

/-- The character loop of the inner `escape` function of `_native_name`,
with the accumulated output made explicit: `/` maps to an underscore,
`_` `;` `[` map to their two-character escapes, a numeric character
directly after an emitted underscore aborts the whole escape (`None`),
other ASCII alphanumerics pass through, and anything else is emitted as
an underscore, a zero and four hex digits of the character reinterpreted
as u16. -/
def escapeAux : List Char → List Char → Option (List Char)
  | acc, [] => some acc
  | acc, c :: rest =>
    if c = '/' then escapeAux (acc ++ ['_']) rest
    else if c = '_' then escapeAux (acc ++ ['_', '1']) rest
    else if c = ';' then escapeAux (acc ++ ['_', '2']) rest
    else if c = '[' then escapeAux (acc ++ ['_', '3']) rest
    else if rust_is_numeric c && (acc.getLast? == some '_') then none
    else if rust_is_ascii_alphanumeric c then escapeAux (acc ++ [c]) rest
    else escapeAux (acc ++ '_' :: '0' :: hex4 (c.toNat % 65536)) rest

/-- The inner `escape` of `_native_name`. -/
def escape (s : String) : Option String :=
  (escapeAux [] s.toList).map (fun l => String.mk l)

/-- `NativeEscapeError { class, method, overload_signature }` of
src/src/lib.rs; the `class` field is renamed `cls` because `class` is a
reserved word in Lean. -/
structure NativeEscapeError where
  cls : String
  method : String
  overload_signature : Option String
deriving DecidableEq, Repr

/-- `_native_name` (src/src/lib.rs lines 31-72): escape the class name,
the method name and the optional overload signature; if any escape
aborts, return a `NativeEscapeError` carrying the original inputs, else
assemble `Java_<cls>_<method>` with `__<signature>` appended when an
overload signature is present. -/
def _native_name (cls : String) (method : String)
    (overload_signature : Option String) : Except NativeEscapeError String :=
  let osEscaped : Option (Option String) :=
    match overload_signature with
    | some os => (escape os).map some
    | none => some none
  match escape cls, escape method, osEscaped with
  | some c, some m, some osr =>
    .ok (match osr with
      | some os => "Java_" ++ c ++ "_" ++ m ++ "__" ++ os
      | none => "Java_" ++ c ++ "_" ++ m)
  | _, _, _ => .error ⟨cls, method, overload_signature⟩

/-! ## Helper lemmas -/

/-- The code 0 (JNI_OK) is not an error constant, so `assert_ok` passes
it through. -/
theorem assert_ok_zero (lk : Option (Except VmError (List JavaVM))) :
    assert_ok lk 0 = some (.ok 0) := rfl

/-- Reinterpreting a natural below the usize range as i32-then-usize is
the identity. -/
theorem i32_as_usize_ofNat (n : Nat) (h : n < 18446744073709551616) :
    i32_as_usize (n : Int) = n := by
  unfold i32_as_usize
  omega

/-- Recovering a list from its image under `some` by `filterMap id`. -/
theorem filterMap_id_map_some {α : Type} (l : List α) :
    (l.map some).filterMap id = l := by
  induction l with
  | nil => rfl
  | cons a t ih => simp [ih]

/-- A buffer of handles drawn from a positive-valued family contains no
null entry. -/
theorem range_map_any_zero {h : Nat → Nat} {N : Nat}
    (hh : ∀ i, i < N → h i ≠ 0) :
    (((List.range N).map h).any (· = 0)) = false := by
  rw [List.any_eq_false]
  intro x hx
  simp only [List.mem_map, List.mem_range] at hx
  obtain ⟨i, hi, rfl⟩ := hx
  simpa using hh i hi

/-- Resizing a list no longer than the target yields the target length. -/
theorem listResize_length (l : List Nat) (n : Nat) (h : l.length ≤ n) :
    (listResize l n).length = n := by
  simp [listResize]
  omega

/-! ## Claim theorems -/

/-- C1: downgrading the bound object produced by upgrading a GlobalRef
with any JniEnv yields a GlobalRef whose raw object handle and
descriptor identity equal the original's, for every reverse-lookup
oracle deriving the owning JavaVM from the environment. -/
theorem upgrade_downgrade_roundtrip (getJavaVM : JniEnv → JavaVM)
    (r : GlobalRef) (env : JniEnv) :
    (GlobalObj.downgrade getJavaVM (r.upgrade env)).obj = r.obj ∧
    (GlobalObj.downgrade getJavaVM (r.upgrade env)).desc = r.desc :=
  ⟨rfl, rfl⟩

/-- C2: `VmError::assert_ok` maps each of the six JNI error constants to
exactly its corresponding VmError variant (for JNI_EEXIST, the VMExists
variant carrying the nested lookup), and passes every other integer
through unchanged as success. -/
theorem assert_ok_error_mapping :
    (∀ lk, assert_ok lk JNI_ERR = some (.error .Unknown)) ∧
    (∀ lk, assert_ok lk JNI_EDETACHED = some (.error .Detached)) ∧
    (∀ lk, assert_ok lk JNI_EVERSION = some (.error .BadVersion)) ∧
    (∀ lk, assert_ok lk JNI_ENOMEM = some (.error .NotEnoughMemory)) ∧
    (∀ v rest, assert_ok (some (.ok (v :: rest))) JNI_EEXIST
      = some (.error (.VMExists (.ok v)))) ∧
    (∀ e, assert_ok (some (.error e)) JNI_EEXIST
      = some (.error (.VMExists (.error e)))) ∧
    (∀ lk, assert_ok lk JNI_EINVAL = some (.error .InvalidArguments)) ∧
    (∀ lk (n : Int), n ≠ JNI_ERR → n ≠ JNI_EDETACHED → n ≠ JNI_EVERSION →
      n ≠ JNI_ENOMEM → n ≠ JNI_EEXIST → n ≠ JNI_EINVAL →
      assert_ok lk n = some (.ok n)) := by
  refine ⟨fun lk => rfl, fun lk => rfl, fun lk => rfl, fun lk => rfl,
    fun v rest => rfl, fun e => rfl, fun lk => rfl, ?_⟩
  intro lk n h1 h2 h3 h4 h5 h6
  simp [assert_ok, h1, h2, h3, h4, h5, h6]

/-- Witness for C2: the known constant -1 maps to Unknown and the
non-error code 7 passes through unchanged. -/
theorem assert_ok_error_mapping_witness :
    assert_ok (some (.ok [⟨1⟩])) JNI_ERR = some (.error .Unknown) ∧
    assert_ok (some (.ok [⟨1⟩])) 7 = some (.ok 7) :=
  ⟨assert_ok_error_mapping.1 (some (.ok [⟨1⟩])),
   assert_ok_error_mapping.2.2.2.2.2.2.2 (some (.ok [⟨1⟩])) 7
     (by decide) (by decide) (by decide) (by decide) (by decide) (by decide)⟩

/-- C3 counterexample: with a successful nested lookup returning two
runtime handles, the VMExists error produced for JNI_EEXIST carries only
the first handle, not a value equal to the full enumeration result. -/
theorem assert_ok_eexist_first_only :
    assert_ok (some (.ok [⟨1⟩, ⟨2⟩])) JNI_EEXIST
      = some (.error (.VMExists (.ok ⟨1⟩))) ∧
    carriedJvms (.VMExists (.ok ⟨1⟩)) ≠ [(⟨1⟩ : JavaVM), ⟨2⟩] :=
  ⟨rfl, by decide⟩

/-- C3 amended: for JNI_EEXIST, when the nested `created_jvms` lookup
succeeds with a nonempty list the VMExists error carries the list's
first handle (hence exactly the lookup result whenever a single instance
exists), and when the lookup fails the nested failure is carried
instead. -/
theorem assert_ok_eexist_carries_first :
    (∀ v rest, assert_ok (some (.ok (v :: rest))) JNI_EEXIST
      = some (.error (.VMExists (.ok v))) ∧
      carriedJvms (.VMExists (.ok v)) = [v]) ∧
    (∀ e, assert_ok (some (.error e)) JNI_EEXIST
      = some (.error (.VMExists (.error e)))) :=
  ⟨fun _ _ => ⟨rfl, rfl⟩, fun _ => rfl⟩

/-- C9: the native-symbol escaping transform on class p/q/r/A and method
f yields Java_p_q_r_A_f without a signature, and
Java_p_q_r_A_f__ILjava_lang_String_2 with the overload signature
ILjava/lang/String;. -/
theorem native_name_examples :
    _native_name "p/q/r/A" "f" none = .ok "Java_p_q_r_A_f" ∧
    _native_name "p/q/r/A" "f" (some "ILjava/lang/String;")
      = .ok "Java_p_q_r_A_f__ILjava_lang_String_2" :=
  ⟨rfl, rfl⟩

/-- C10: evaluating the version codec at major 1, minor 2 shows the
round-trip is not the identity: the source's
`(n & 0xFFFF0000 >> 16) as u16` groups the shift under the mask
(precedence slip), so the major field comes back holding the minor
bits. -/
theorem from_native_as_native_not_id :
    JniVersion.from_native (JniVersion.as_native ⟨1, 2⟩) = ⟨2, 2⟩ ∧
    (⟨2, 2⟩ : JniVersion) ≠ ⟨1, 2⟩ := by
  constructor <;> decide

/-- C6: `JavaVM::create` panics (modelled `none`) whenever the option
list contains an entry equal to vfprintf, exit or abort, for every
foreign-create oracle (so before any foreign call is attempted); an
option list containing none of these reaches the foreign create call on
the encoded init args. -/
theorem create_rejects_special_options
    (lookup : Option (Except VmError (List JavaVM)))
    (encode : String → List Nat)
    (foreign : JavaVMInitArgs → CreateOutcome) (opts : VmOptions) :
    ((opts.options.any (fun s => s == "vfprintf") = true ∨
      opts.options.any (fun s => s == "exit") = true ∨
      opts.options.any (fun s => s == "abort") = true) →
      create lookup encode foreign opts = none) ∧
    (opts.options.any (fun s => s == "vfprintf") = false →
      opts.options.any (fun s => s == "exit") = false →
      opts.options.any (fun s => s == "abort") = false →
      create lookup encode foreign opts
        = createForeignCall lookup foreign (createInitArgs encode opts)) := by
  constructor
  · rintro (h | h | h) <;> simp [create, h]
  · intro h1 h2 h3
    simp [create, h1, h2, h3]

/-- Witness for C6: a configuration naming vfprintf panics, and a plain
-Xmx option list reaches the foreign create call. -/
theorem create_rejects_special_options_witness :
    create (some (.ok [⟨1⟩])) (fun _ => []) (fun _ => ⟨0, 1, 1⟩)
      ⟨⟨1, 6⟩, ["vfprintf"], false⟩ = none ∧
    create (some (.ok [⟨1⟩])) (fun _ => []) (fun _ => ⟨0, 1, 1⟩)
      ⟨⟨1, 6⟩, ["-Xmx1g"], false⟩
      = createForeignCall (some (.ok [⟨1⟩])) (fun _ => ⟨0, 1, 1⟩)
          (createInitArgs (fun _ => []) ⟨⟨1, 6⟩, ["-Xmx1g"], false⟩) :=
  ⟨(create_rejects_special_options _ _ _ _).1 (Or.inl (by decide)),
   (create_rejects_special_options _ _ _ _).2 (by decide) (by decide) (by decide)⟩

/-- C7: `JavaVM::destroy` with an unpopulated DestroyJavaVM slot in the
function table returns MissingFunction carrying the function name and
invokes nothing; with a populated slot the result is exactly the
processing of the invoked function's return code. -/
theorem destroy_missing_function
    (lookup : Option (Except VmError (List JavaVM)))
    (mem : Nat → JNIInvokeInterface) (jvm : JavaVM) :
    ((mem jvm.ptr).DestroyJavaVM = none →
      destroy lookup mem jvm
        = some (.error (.MissingFunction "DestroyJavaVM"))) ∧
    (∀ f, (mem jvm.ptr).DestroyJavaVM = some f →
      destroy lookup mem jvm = destroyInvokeResult lookup (f jvm.ptr)) := by
  constructor
  · intro h
    simp [destroy, h]
  · intro f h
    simp [destroy, h]

/-- Witness for C7: a function table with an empty DestroyJavaVM slot
yields the MissingFunction error. -/
theorem destroy_missing_function_witness :
    destroy (some (.ok [⟨1⟩])) (fun _ => ⟨none⟩) ⟨5⟩
      = some (.error (.MissingFunction "DestroyJavaVM")) :=
  (destroy_missing_function (some (.ok [⟨1⟩])) (fun _ => ⟨none⟩) ⟨5⟩).1 rfl

/-- C8: `JavaVM::create_with` composes create, the user function and
destroy: a creation failure is returned as the error paired with no
result; on creation success the user function runs and destroy is
called, a destroy success returning the user result and a destroy
failure returning both the destruction error and the already-computed
user result. -/
theorem create_with_composition {O : Type}
    (lookup : Option (Except VmError (List JavaVM)))
    (encode : String → List Nat)
    (foreign : JavaVMInitArgs → CreateOutcome)
    (mem : Nat → JNIInvokeInterface)
    (opts : VmOptions) (func : JavaVM → JniEnv → O) :
    (∀ e, create lookup encode foreign opts = some (.error e) →
      create_with lookup encode foreign mem opts func
        = some (.error (e, none))) ∧
    (∀ jvm jenv, create lookup encode foreign opts = some (.ok (jvm, jenv)) →
      destroy lookup mem jvm = some (.ok ()) →
      create_with lookup encode foreign mem opts func
        = some (.ok (func jvm jenv))) ∧
    (∀ jvm jenv e, create lookup encode foreign opts = some (.ok (jvm, jenv)) →
      destroy lookup mem jvm = some (.error e) →
      create_with lookup encode foreign mem opts func
        = some (.error (e, some (func jvm jenv)))) := by
  refine ⟨?_, ?_, ?_⟩
  · intro e h
    simp [create_with, h]
  · intro jvm jenv h1 h2
    simp [create_with, h1, h2]
  · intro jvm jenv e h1 h2
    simp [create_with, h1, h2]

/-- Witness for C8: with oracles on which creation and destruction both
succeed, create_with returns the user function's result. -/
theorem create_with_composition_witness :
    create_with (some (.ok [⟨1⟩])) (fun _ => []) (fun _ => ⟨0, 3, 4⟩)
      (fun _ => ⟨some (fun _ => 0)⟩) ⟨⟨1, 6⟩, [], false⟩
      (fun jvm _ => jvm.ptr)
      = some (.ok 3) :=
  (create_with_composition (some (.ok [⟨1⟩])) (fun _ => []) (fun _ => ⟨0, 3, 4⟩)
    (fun _ => ⟨some (fun _ => 0)⟩) ⟨⟨1, 6⟩, [], false⟩
    (fun jvm _ => jvm.ptr)).2.1 ⟨3⟩ ⟨4⟩ rfl rfl

/-- C4: `JavaVM::default_args` sends the foreign query a 64-entry option
buffer (nOptions 64), its result is exactly the processing of that
query's outcome, a reported option count above the 64-entry capacity
makes it panic (`none`) rather than return a truncated list, and a
count within capacity returns exactly the reported options decoded
through the codec. -/
theorem default_args_capacity
    (lookup : Option (Except VmError (List JavaVM)))
    (decode : List Nat → Except Cesu8DecodingError String)
    (foreign : JavaVMInitArgs → DefaultArgsOutcome)
    (tv : JniVersion) :
    ((defaultArgsQuery tv).nOptions = 64 ∧
      (defaultArgsQuery tv).options.length = 64) ∧
    (default_args lookup decode foreign tv
      = processDefaultArgs lookup decode (foreign (defaultArgsQuery tv))) ∧
    ((foreign (defaultArgsQuery tv)).res = 0 →
      (foreign (defaultArgsQuery tv)).optionsNull = false →
      (foreign (defaultArgsQuery tv)).nOptions > 64 →
      default_args lookup decode foreign tv = none) ∧
    (∀ (entries : List (List Nat)) (opts : List String),
      (foreign (defaultArgsQuery tv)).res = 0 →
      (foreign (defaultArgsQuery tv)).optionsNull = false →
      0 ≤ (foreign (defaultArgsQuery tv)).nOptions →
      (foreign (defaultArgsQuery tv)).nOptions ≤ 64 →
      (foreign (defaultArgsQuery tv)).buffer.take
          (foreign (defaultArgsQuery tv)).nOptions.toNat = entries.map some →
      entries.mapM decode = .ok opts →
      default_args lookup decode foreign tv
        = some (.ok
            { version := JniVersion.from_native
                (i32_as_u32 (foreign (defaultArgsQuery tv)).version)
              options := opts
              ignore_unrecognized :=
                j2r_bool (foreign (defaultArgsQuery tv)).ignoreUnrecognized })) := by
  refine ⟨⟨rfl, rfl⟩, rfl, ?_, ?_⟩
  · intro h1 h2 h3
    simp [default_args, processDefaultArgs, h1, h2, h3, assert_ok_zero]
  · intro entries opts h1 h2 h3 h4 hbuf hdec
    have hcast : i32_as_usize (foreign (defaultArgsQuery tv)).nOptions
        = (foreign (defaultArgsQuery tv)).nOptions.toNat := by
      unfold i32_as_usize
      omega
    have hgt : ¬ ((foreign (defaultArgsQuery tv)).nOptions > 64) := by omega
    have hgt2 : ¬ (i32_as_usize (foreign (defaultArgsQuery tv)).nOptions > 64) := by
      rw [hcast]
      omega
    simp only [default_args, processDefaultArgs, h1, assert_ok_zero, h2,
      if_neg hgt, if_neg hgt2, hcast, hbuf, filterMap_id_map_some, hdec]
    simp
    omega

/-- Witness for C4: a reported count of 65 panics, and a reported count
of 2 within the 64-entry capacity returns exactly the two reported
decoded options. -/
theorem default_args_capacity_witness :
    default_args (some (.ok [⟨1⟩])) (fun _ => .ok "x")
      (fun _ => ⟨0, 0, 65, false, [], 0⟩) ⟨1, 6⟩ = none ∧
    default_args (some (.ok [⟨1⟩])) (fun _ => .ok "x")
      (fun _ => ⟨0, 0, 2, false, [some [97], some [98]], 1⟩) ⟨1, 6⟩
      = some (.ok ⟨⟨0, 0⟩, ["x", "x"], true⟩) := by
  constructor
  · exact (default_args_capacity (some (.ok [⟨1⟩])) (fun _ => .ok "x")
      (fun _ => ⟨0, 0, 65, false, [], 0⟩) ⟨1, 6⟩).2.2.1 rfl rfl (by decide)
  · exact (default_args_capacity (some (.ok [⟨1⟩])) (fun _ => .ok "x")
      (fun _ => ⟨0, 0, 2, false, [some [97], some [98]], 1⟩) ⟨1, 6⟩).2.2.2
      [[97], [98]] ["x", "x"] rfl rfl (by decide) (by decide) rfl rfl

/-- C5: `JavaVM::created_jvms` follows the two-call sizing protocol.
Against a consistent foreign enumeration (a fixed true count N whose
handles fill the leading buffer entries), whenever the true count
exceeds the current buffer length the loop regrows the buffer to
exactly the true count and retries, and the returned vector contains
exactly the N runtime handles with none dropped, independently of the
initial one-entry probe guess. -/
theorem created_jvms_two_call
    (lookup : Option (Except VmError (List JavaVM)))
    (fetch : Nat → CreatedOutcome) (N : Nat) (h : Nat → Nat)
    (hfetch : ∀ len, fetch len = ⟨0, (N : Int), (List.range (min len N)).map h⟩)
    (hh : ∀ i, i < N → h i ≠ 0)
    (hN : N ≤ 2147483647) :
    (∀ fuel (buf : List Nat), buf.length < N → buf.length ≤ 2147483647 →
      ∃ buf2 : List Nat, buf2.length = N ∧
        created_jvms_loop lookup fetch (fuel + 1) buf
          = created_jvms_loop lookup fetch fuel buf2) ∧
    (∀ fuel, created_jvms lookup fetch (fuel + 2)
      = some (.ok ((List.range N).map (fun i => ⟨h i⟩)))) := by
  have husz : i32_as_usize ((N : Nat) : Int) = N := i32_as_usize_ofNat N (by omega)
  have hdone : ∀ fuel (buf : List Nat), buf.length = N →
      created_jvms_loop lookup fetch (fuel + 1) buf
        = some (.ok ((List.range N).map (fun i => ⟨h i⟩))) := by
    intro fuel buf hbl
    have e1 : fetch buf.length = ⟨0, (N : Int), (List.range N).map h⟩ := by
      rw [hbl, hfetch]
      simp
    have hdrop : buf.drop (((List.range N).map h).length) = [] :=
      List.drop_eq_nil_of_le (by simp [hbl])
    have c1 : ¬ (buf.length > 2147483647) := by omega
    have c2 : ¬ ((N : Int) > (buf.length : Int)) := by
      rw [hbl]
      simp
    have c3 : ¬ ((N : Int) < (buf.length : Int)) := by
      rw [hbl]
      simp
    simp only [created_jvms_loop, e1, assert_ok_zero, hdrop, List.append_nil]
    simp [c1, c2, c3, range_map_any_zero hh, List.map_map, Function.comp]
  have hregrow : ∀ fuel (buf : List Nat), buf.length < N → buf.length ≤ 2147483647 →
      ∃ buf2 : List Nat, buf2.length = N ∧
        created_jvms_loop lookup fetch (fuel + 1) buf
          = created_jvms_loop lookup fetch fuel buf2 := by
    intro fuel buf hlt hle
    have hmin : min buf.length N = buf.length := by omega
    have hlen : (((List.range (min buf.length N)).map h)
        ++ buf.drop (((List.range (min buf.length N)).map h).length)).length ≤ N := by
      simp [hmin]
      omega
    refine ⟨listResize (((List.range (min buf.length N)).map h)
        ++ buf.drop (((List.range (min buf.length N)).map h).length)) N,
      listResize_length _ _ hlen, ?_⟩
    have c1 : ¬ (buf.length > 2147483647) := by omega
    have c2 : ((N : Int) > (buf.length : Int)) := by exact_mod_cast hlt
    simp only [created_jvms_loop, hfetch, assert_ok_zero]
    simp [c1, c2, husz]
  refine ⟨hregrow, ?_⟩
  intro fuel
  unfold created_jvms
  rcases Nat.lt_or_ge 1 N with hgt | hle
  · obtain ⟨buf2, hbl, heq⟩ :=
      hregrow (fuel + 1) (List.replicate 1 0) (by simpa using hgt) (by simp)
    rw [show fuel + 2 = (fuel + 1) + 1 from rfl, heq]
    exact hdone fuel buf2 hbl
  · rcases N with _ | n
    · simp [created_jvms_loop, hfetch, assert_ok_zero, i32_as_usize]
    · have hn : n = 0 := by omega
      subst hn
      exact hdone (fuel + 1) (List.replicate 1 0) (by simp)

/-- Witness for C5: a consistent enumeration with true count 3 and
handles 1, 2, 3 makes the probe-and-regrow loop return exactly the
three handles within two calls. -/
theorem created_jvms_two_call_witness :
    created_jvms (some (.ok [⟨9⟩]))
      (fun len => ⟨0, 3, (List.range (min len 3)).map (fun i => i + 1)⟩) 2
      = some (.ok [⟨1⟩, ⟨2⟩, ⟨3⟩]) := by
  have := (created_jvms_two_call (some (.ok [⟨9⟩]))
    (fun len => ⟨0, 3, (List.range (min len 3)).map (fun i => i + 1)⟩)
    3 (fun i => i + 1) (fun len => rfl) (by decide) (by norm_num)).2 0
  rw [this]
  rfl

end Yajnir
